import Mathlib

/-!
Shallow embedding of the session/message state management of the
Urdu–English communicator app (src/App.tsx, src/unnamed/part_000 constants,
src/unnamed/part_001 types).

Modelling conventions:
* React state `(sessions, currentSessionId, isLoading)` is an explicit
  `AppState` record; each handler becomes a pure state-transition function.
* `Date.now()` is an explicit `Nat` parameter `t` threaded into every
  operation that reads the clock; `Date.now().toString()` is `toString t`.
* JavaScript string operations `text.length`, `text.substring(0, 30)` are
  modelled on Lean strings as `String.length` / `String.take` (the texts in
  play are BMP text, where UTF-16 code units coincide with characters).
* The `await translateText(text)` call is modelled by an `Except String
  String` argument: `.ok translated` for a resolved promise, `.error e`
  for a rejected one.  Effects outside the modelled state (speech
  synthesis, scrolling, localStorage writes, console logging) are omitted;
  they do not touch sessions, current id or the loading flag.
-/

/-- `Sender` enum from src/unnamed/part_001 (`USER = 'user'`, `AI = 'ai'`). -/
inductive Sender where
  | user
  | ai
deriving DecidableEq, Repr

/-- `Message` interface from src/unnamed/part_001. -/
structure Message where
  id : String
  text : String
  originalText : Option String
  sender : Sender
  timestamp : Nat
deriving DecidableEq, Repr

/-- `ChatSession` interface from src/unnamed/part_001. -/
structure ChatSession where
  id : String
  title : String
  messages : List Message
  createdAt : Nat
  updatedAt : Nat
deriving DecidableEq, Repr

/-- The React state of `App` that the claims concern:
`sessions`, `currentSessionId` and `isLoading` (src/App.tsx lines 16-21). -/
structure AppState where
  sessions : List ChatSession
  currentSessionId : String
  isLoading : Bool
deriving DecidableEq, Repr

/-- The message record built inside `addMessageToCurrentSession`
(src/App.tsx lines 100-106): `id: Date.now().toString()`,
`timestamp: Date.now()`. -/
def mkMessage (t : Nat) (text : String) (sender : Sender)
    (originalText : Option String) : Message :=
  { id := toString t
    text := text
    originalText := originalText
    sender := sender
    timestamp := t }

/-- The per-session updater that `addMessageToCurrentSession` maps over
`prev` (the body of the arrow function at src/App.tsx lines 98-122):
on the session whose id is the captured `currentSessionId`, append the new
message, derive the title when this is the first message and the sender is
USER, and refresh `updatedAt`; leave every other session untouched. -/
def appendToSession (currentId : String) (text : String) (sender : Sender)
    (originalText : Option String) (t : Nat) (session : ChatSession) :
    ChatSession :=
  if session.id = currentId then
    let newMessage := mkMessage t text sender originalText
    let updatedMessages := session.messages ++ [newMessage]
    let newTitle :=
      if session.messages.length = 0 ∧ sender = Sender.user then
        (if text.length > 30 then text.take 30 ++ "..." else text)
      else session.title
    { session with
        messages := updatedMessages
        title := newTitle
        updatedAt := t }
  else session

/-- `addMessageToCurrentSession` (src/App.tsx lines 97-123):
`setSessions(prev => prev.map(...))` with `currentSessionId` captured at
call time. -/
def addMessageToCurrentSession (st : AppState) (text : String)
    (sender : Sender) (originalText : Option String) (t : Nat) : AppState :=
  { st with
      sessions :=
        st.sessions.map
          (appendToSession st.currentSessionId text sender originalText t) }

/-- The fixed fallback text appended on a failed translation
(src/App.tsx line 141). -/
def errorFallbackText : String :=
  "Error processing request. Please check your internet connection."

/-- Whitespace as recognized by JavaScript `String.prototype.trim`
(restricted to the ASCII whitespace that can occur in the app's text
input). -/
def isJsWhitespace (c : Char) : Bool :=
  c == ' ' || c == '\t' || c == '\n' || c == '\r'

/-- JavaScript `text.trim()`: strip whitespace from both ends. -/
def jsTrim (s : String) : String :=
  String.mk
    (((s.data.dropWhile isJsWhitespace).reverse.dropWhile
        isJsWhitespace).reverse)

/-- `handleSendMessage` (src/App.tsx lines 125-145): no-op on blank input;
otherwise append the USER message, set loading, await translation
(modelled by the `tr` argument, read at `t2`), append either the AI
translation (with `originalText` set to the input) or the fixed fallback
message, and clear loading in the `finally` block. -/
def handleSendMessage (st : AppState) (text : String)
    (tr : Except String String) (t1 t2 : Nat) : AppState :=
  if jsTrim text = "" then st
  else
    let st1 :=
      { addMessageToCurrentSession st text Sender.user none t1 with
          isLoading := true }
    let st2 :=
      match tr with
      | Except.ok translated =>
          addMessageToCurrentSession st1 translated Sender.ai (some text) t2
      | Except.error _ =>
          addMessageToCurrentSession st1 errorFallbackText Sender.ai none t2
    { st2 with isLoading := false }

/-- The fresh empty session built by `createNewSession` and by the
empty-remainder branch of `deleteSession` (src/App.tsx lines 80-86 and
156-162). -/
def newSessionAt (t : Nat) : ChatSession :=
  { id := toString t
    title := "New Conversation"
    messages := []
    createdAt := t
    updatedAt := t }

/-- `createNewSession` (src/App.tsx lines 78-89): prepend a fresh empty
session and make it current. -/
def createNewSession (st : AppState) (t : Nat) : AppState :=
  { st with
      sessions := newSessionAt t :: st.sessions
      currentSessionId := toString t }

/-- `deleteSession` (src/App.tsx lines 147-170), after the user confirms:
filter out the named id; if it was current, select `remaining[0]` when any
session remains, otherwise replace the collection with one fresh empty
session and select it. -/
def deleteSession (st : AppState) (id : String) (t : Nat) : AppState :=
  let remaining := st.sessions.filter (fun s => s.id != id)
  if st.currentSessionId = id then
    if h : 0 < remaining.length then
      { st with
          sessions := remaining
          currentSessionId := (remaining.get ⟨0, h⟩).id }
    else
      let empty := newSessionAt t
      { st with
          sessions := [empty]
          currentSessionId := empty.id }
  else
    { st with sessions := remaining }

/-- `clearHistory` (src/App.tsx lines 172-179), after the user confirms:
empty the collection, then `createNewSession`. -/
def clearHistory (st : AppState) (t : Nat) : AppState :=
  createNewSession { st with sessions := [] } t

/-- One user-initiated session-collection operation, for reasoning about
arbitrary sequences of create / delete / clear-all. -/
inductive SessionOp where
  | create (t : Nat)
  | delete (id : String) (t : Nat)
  | clear (t : Nat)
deriving DecidableEq, Repr

/-- Apply one operation to the state. -/
def applyOp (st : AppState) : SessionOp → AppState
  | SessionOp.create t => createNewSession st t
  | SessionOp.delete id t => deleteSession st id t
  | SessionOp.clear t => clearHistory st t

/-- Apply a sequence of operations, left to right. -/
def applyOps (st : AppState) (ops : List SessionOp) : AppState :=
  ops.foldl applyOp st

/-- The steady-state invariant established by initialization: the
collection is non-empty and `currentSessionId` references one of its
elements. -/
def StoreInv (st : AppState) : Prop :=
  st.sessions ≠ [] ∧ st.currentSessionId ∈ st.sessions.map (fun s => s.id)

instance (st : AppState) : Decidable (StoreInv st) := by
  unfold StoreInv; infer_instance

/-- `preferredVoice` values from src/unnamed/part_001. -/
inductive PreferredVoice where
  | enUS
  | urPK
deriving DecidableEq, Repr

/-- `Settings` interface from src/unnamed/part_001. -/
structure Settings where
  darkMode : Bool
  voiceEnabled : Bool
  preferredVoice : PreferredVoice
  animationsEnabled : Bool
deriving DecidableEq, Repr

/-- `DEFAULT_SETTINGS` from src/unnamed/part_000. -/
def DEFAULT_SETTINGS : Settings :=
  { darkMode := false
    voiceEnabled := true
    preferredVoice := PreferredVoice.enUS
    animationsEnabled := true }

/-- A persisted settings object as `JSON.parse` can deliver it: any subset
of the four fields may be present (absent JSON keys are `none`). -/
structure SettingsPatch where
  darkMode : Option Bool
  voiceEnabled : Option Bool
  preferredVoice : Option PreferredVoice
  animationsEnabled : Option Bool
deriving DecidableEq, Repr

/-- What `localStorage.getItem(SETTINGS_STORAGE_KEY)` plus `JSON.parse`
can yield: no stored value, a stored value that fails to parse (or parses
to a non-object, which spreads to nothing), or a parsed partial object. -/
inductive StoredSettings where
  | absent
  | malformed
  | parsed (p : SettingsPatch)
deriving DecidableEq, Repr

/-- The spread merge `{ ...DEFAULT_SETTINGS, ...JSON.parse(savedSettings) }`
(src/App.tsx line 36): a field present in the parsed blob overrides the
default, a field absent keeps the default. -/
def mergeSettings (base : Settings) (p : SettingsPatch) : Settings :=
  { darkMode := p.darkMode.getD base.darkMode
    voiceEnabled := p.voiceEnabled.getD base.voiceEnabled
    preferredVoice := p.preferredVoice.getD base.preferredVoice
    animationsEnabled := p.animationsEnabled.getD base.animationsEnabled }

/-- The settings branch of the initial load effect (src/App.tsx lines
33-38): absent key leaves the `DEFAULT_SETTINGS` initial state; a parse
error is caught, leaving the default; a parsed blob is spread over the
defaults. -/
def loadSettings : StoredSettings → Settings
  | StoredSettings.absent => DEFAULT_SETTINGS
  | StoredSettings.malformed => DEFAULT_SETTINGS
  | StoredSettings.parsed p => mergeSettings DEFAULT_SETTINGS p

/-- Modelled from the spec's words for comparison with the code (claim
about `deleteSession`): "the next remaining session in the prior order" —
the first session that follows the (first) occurrence of the deleted id in
the prior order and survives the deletion. -/
def nextRemainingAfter : List ChatSession → String → Option String
  | [], _ => none
  | s :: rest, id =>
      if s.id = id then
        ((rest.filter (fun x => x.id != id)).head?).map (fun x => x.id)
      else nextRemainingAfter rest id

example :
    handleSendMessage
      (⟨[⟨"1", "New Conversation", [], 0, 0⟩], "1", false⟩ : AppState)
      "hi" (Except.ok "salaam") 5 6 =
    ⟨[⟨"1", "hi",
        [⟨"5", "hi", none, Sender.user, 5⟩,
         ⟨"6", "salaam", some "hi", Sender.ai, 6⟩], 0, 6⟩], "1", false⟩ := by
  decide

/-! ## Helper lemmas -/

theorem appendToSession_id (cid text : String) (sender : Sender)
    (orig : Option String) (t : Nat) (s : ChatSession) :
    (appendToSession cid text sender orig t s).id = s.id := by
  unfold appendToSession
  split <;> rfl

theorem appendToSession_of_id (cid text : String) (sender : Sender)
    (orig : Option String) (t : Nat) (s : ChatSession) (h : s.id = cid) :
    appendToSession cid text sender orig t s =
      { s with
          messages := s.messages ++ [mkMessage t text sender orig]
          title :=
            if s.messages.length = 0 ∧ sender = Sender.user then
              (if text.length > 30 then text.take 30 ++ "..." else text)
            else s.title
          updatedAt := t } := by
  unfold appendToSession
  rw [if_pos h]

theorem addMessage_sessions_eq (st : AppState) (text : String)
    (sender : Sender) (orig : Option String) (t : Nat) :
    (addMessageToCurrentSession st text sender orig t).sessions =
      st.sessions.map
        (appendToSession st.currentSessionId text sender orig t) := rfl

theorem addMessage_currentId (st : AppState) (text : String)
    (sender : Sender) (orig : Option String) (t : Nat) :
    (addMessageToCurrentSession st text sender orig t).currentSessionId =
      st.currentSessionId := rfl

theorem addMessage_length (st : AppState) (text : String) (sender : Sender)
    (orig : Option String) (t : Nat) :
    (addMessageToCurrentSession st text sender orig t).sessions.length =
      st.sessions.length := by
  simp [addMessage_sessions_eq]

/-! ## C8: appending is append-only and adds exactly one message -/

/-- C8: for every session present in the collection (here: the session at
index `i` whose id is the captured current id — the only session
`addMessageToCurrentSession` touches), appending a message yields exactly
the old message list with one new message at the end, so the count grows
by exactly one and every previously stored message is unchanged and in its
original position. -/
theorem addMessage_appends_exactly_one (st : AppState) (text : String)
    (sender : Sender) (orig : Option String) (t i : Nat)
    (hlt : i < st.sessions.length)
    (hid : (st.sessions[i]).id = st.currentSessionId) :
    ∃ hlt2 : i < (addMessageToCurrentSession st text sender orig t).sessions.length,
      ((addMessageToCurrentSession st text sender orig t).sessions[i]).messages =
          st.sessions[i].messages ++ [mkMessage t text sender orig] ∧
      ((addMessageToCurrentSession st text sender orig t).sessions[i]).messages.length =
          st.sessions[i].messages.length + 1 := by
  refine ⟨by rw [addMessage_length]; exact hlt, ?_, ?_⟩ <;>
    simp [addMessage_sessions_eq, List.getElem_map,
      appendToSession_of_id _ _ _ _ _ _ hid]

/-- C8 witness: concrete one-session state, appending at time 7. -/
theorem addMessage_appends_exactly_one_witness :
    ∃ hlt2 : 0 < (addMessageToCurrentSession
        (⟨[⟨"1", "New Conversation", [], 0, 0⟩], "1", false⟩ : AppState)
        "hi" Sender.user none 7).sessions.length,
      ((addMessageToCurrentSession
        (⟨[⟨"1", "New Conversation", [], 0, 0⟩], "1", false⟩ : AppState)
        "hi" Sender.user none 7).sessions[0]).messages =
          (⟨[⟨"1", "New Conversation", [], 0, 0⟩], "1", false⟩ : AppState).sessions[0].messages
            ++ [mkMessage 7 "hi" Sender.user none] ∧
      ((addMessageToCurrentSession
        (⟨[⟨"1", "New Conversation", [], 0, 0⟩], "1", false⟩ : AppState)
        "hi" Sender.user none 7).sessions[0]).messages.length =
          (⟨[⟨"1", "New Conversation", [], 0, 0⟩], "1", false⟩ : AppState).sessions[0].messages.length + 1 :=
  addMessage_appends_exactly_one
    (⟨[⟨"1", "New Conversation", [], 0, 0⟩], "1", false⟩ : AppState)
    "hi" Sender.user none 7 0 (by decide) (by decide)

/-! ## C4: title derivation from the first USER message -/

/-- C4: when the first message of the current session is appended with
sender USER, the title becomes the text itself for length at most 30 and
the first 30 characters followed by the ellipsis marker otherwise; in
every other case (session already has messages, or the sender is AI) the
title is left exactly as it was. -/
theorem title_from_first_user_message (st : AppState) (text : String)
    (sender : Sender) (orig : Option String) (t i : Nat)
    (hlt : i < st.sessions.length)
    (hid : (st.sessions[i]).id = st.currentSessionId) :
    ∃ hlt2 : i < (addMessageToCurrentSession st text sender orig t).sessions.length,
      (st.sessions[i].messages = [] ∧ sender = Sender.user →
        ((addMessageToCurrentSession st text sender orig t).sessions[i]).title =
          (if text.length ≤ 30 then text else text.take 30 ++ "...")) ∧
      (¬(st.sessions[i].messages = [] ∧ sender = Sender.user) →
        ((addMessageToCurrentSession st text sender orig t).sessions[i]).title =
          st.sessions[i].title) := by
  refine ⟨by rw [addMessage_length]; exact hlt, ?_, ?_⟩
  · rintro ⟨hempty, huser⟩
    simp only [addMessage_sessions_eq, List.getElem_map,
      appendToSession_of_id _ _ _ _ _ _ hid, hempty, huser]
    rcases Nat.lt_or_ge 30 text.length with h30 | h30
    · simp [h30, Nat.not_le.mpr h30]
    · simp [h30, Nat.not_lt.mpr h30]
  · intro hrest
    simp only [addMessage_sessions_eq, List.getElem_map,
      appendToSession_of_id _ _ _ _ _ _ hid]
    rw [if_neg]
    intro hcon
    exact hrest ⟨List.length_eq_zero.mp hcon.1, hcon.2⟩

/-- C4 witness: a fresh session receives its first USER message "hi"
(length at most 30), so the title becomes "hi"; a session that already has
one message keeps its title (second conjunct instantiated through the same
theorem at the same input, first branch vacuous). -/
theorem title_from_first_user_message_witness :
    ∃ hlt2 : 0 < (addMessageToCurrentSession
        (⟨[⟨"1", "New Conversation", [], 0, 0⟩], "1", false⟩ : AppState)
        "hi" Sender.user none 7).sessions.length,
      ((⟨[⟨"1", "New Conversation", [], 0, 0⟩], "1", false⟩ : AppState).sessions[0].messages = [] ∧ Sender.user = Sender.user →
        ((addMessageToCurrentSession
            (⟨[⟨"1", "New Conversation", [], 0, 0⟩], "1", false⟩ : AppState)
            "hi" Sender.user none 7).sessions[0]).title =
          (if ("hi" : String).length ≤ 30 then "hi" else ("hi" : String).take 30 ++ "...")) ∧
      (¬((⟨[⟨"1", "New Conversation", [], 0, 0⟩], "1", false⟩ : AppState).sessions[0].messages = [] ∧ Sender.user = Sender.user) →
        ((addMessageToCurrentSession
            (⟨[⟨"1", "New Conversation", [], 0, 0⟩], "1", false⟩ : AppState)
            "hi" Sender.user none 7).sessions[0]).title =
          (⟨[⟨"1", "New Conversation", [], 0, 0⟩], "1", false⟩ : AppState).sessions[0].title) :=
  title_from_first_user_message
    (⟨[⟨"1", "New Conversation", [], 0, 0⟩], "1", false⟩ : AppState)
    "hi" Sender.user none 7 0 (by decide) (by decide)

/-! ## C5: appending to a missing session id is a silent no-op -/

/-- C5: when the captured target session id matches no session in the
collection (for instance because that session was deleted while the
translation was in flight), `addMessageToCurrentSession` leaves the state
completely unchanged; the embedded function is total, so no error is
raised or reported. -/
theorem addMessage_missing_session_noop (st : AppState) (text : String)
    (sender : Sender) (orig : Option String) (t : Nat)
    (h : ∀ s ∈ st.sessions, s.id ≠ st.currentSessionId) :
    addMessageToCurrentSession st text sender orig t = st := by
  unfold addMessageToCurrentSession
  have hmap : ∀ l : List ChatSession,
      (∀ s ∈ l, s.id ≠ st.currentSessionId) →
      l.map (appendToSession st.currentSessionId text sender orig t) = l := by
    intro l
    induction l with
    | nil => intro _; rfl
    | cons a as ih =>
        intro hl
        have ha : a.id ≠ st.currentSessionId :=
          hl a (List.mem_cons_self a as)
        have hrest := ih (fun s hs => hl s (List.mem_cons_of_mem a hs))
        simp only [List.map_cons, hrest]
        unfold appendToSession
        rw [if_neg ha]
  rw [hmap st.sessions h]

/-- C5 witness: the sole session has id "1" but the current id is "2"
(the session current at send time was deleted and replaced), so the append
is a no-op. -/
theorem addMessage_missing_session_noop_witness :
    (∀ s ∈ (⟨[⟨"1", "New Conversation", [], 0, 0⟩], "2", false⟩ : AppState).sessions,
        s.id ≠ (⟨[⟨"1", "New Conversation", [], 0, 0⟩], "2", false⟩ : AppState).currentSessionId) ∧
    addMessageToCurrentSession
        (⟨[⟨"1", "New Conversation", [], 0, 0⟩], "2", false⟩ : AppState)
        "hello" Sender.ai none 9 =
      (⟨[⟨"1", "New Conversation", [], 0, 0⟩], "2", false⟩ : AppState) :=
  ⟨by decide,
   addMessage_missing_session_noop
     (⟨[⟨"1", "New Conversation", [], 0, 0⟩], "2", false⟩ : AppState)
     "hello" Sender.ai none 9 (by decide)⟩

/-! ## C1 and C6: handleSend appends USER then AI, resets loading -/

theorem appendToSession_twice (cid text1 text2 : String)
    (sender1 sender2 : Sender) (orig1 orig2 : Option String) (t1 t2 : Nat)
    (s : ChatSession) (h : s.id = cid) :
    (appendToSession cid text2 sender2 orig2 t2
        (appendToSession cid text1 sender1 orig1 t1 s)).messages =
      s.messages ++
        [mkMessage t1 text1 sender1 orig1, mkMessage t2 text2 sender2 orig2] := by
  have h2 : (appendToSession cid text1 sender1 orig1 t1 s).id = cid := by
    rw [appendToSession_id]; exact h
  rw [appendToSession_of_id _ _ _ _ _ _ h2,
    appendToSession_of_id _ _ _ _ _ _ h]
  simp

theorem handleSend_length (st : AppState) (text : String)
    (tr : Except String String) (t1 t2 : Nat) :
    (handleSendMessage st text tr t1 t2).sessions.length =
      st.sessions.length := by
  unfold handleSendMessage
  split
  · rfl
  · cases tr <;> simp [addMessageToCurrentSession]

/-- C1: for non-blank input, a successful `handleSendMessage` appends to
the call-time current session exactly one USER message whose text is the
input, followed by exactly one AI message whose text is the translation
and whose `originalText` is the input, and ends with the loading flag
false. -/
theorem handleSend_success_appends (st : AppState)
    (input translated : String) (t1 t2 i : Nat)
    (hlt : i < st.sessions.length)
    (hid : (st.sessions[i]).id = st.currentSessionId)
    (hnb : jsTrim input ≠ "") :
    ∃ hlt2 : i < (handleSendMessage st input (Except.ok translated) t1 t2).sessions.length,
      ((handleSendMessage st input (Except.ok translated) t1 t2).sessions[i]).messages =
          st.sessions[i].messages ++
            [mkMessage t1 input Sender.user none,
             mkMessage t2 translated Sender.ai (some input)] ∧
      (mkMessage t1 input Sender.user none).text = input ∧
      (mkMessage t1 input Sender.user none).sender = Sender.user ∧
      (mkMessage t2 translated Sender.ai (some input)).text = translated ∧
      (mkMessage t2 translated Sender.ai (some input)).originalText = some input ∧
      (mkMessage t2 translated Sender.ai (some input)).sender = Sender.ai ∧
      (handleSendMessage st input (Except.ok translated) t1 t2).isLoading = false := by
  refine ⟨by rw [handleSend_length]; exact hlt, ?_, rfl, rfl, rfl, rfl, rfl, ?_⟩
  · have hsess :
        (handleSendMessage st input (Except.ok translated) t1 t2).sessions =
          st.sessions.map
            (fun s =>
              appendToSession st.currentSessionId translated Sender.ai
                (some input) t2
                (appendToSession st.currentSessionId input Sender.user none t1
                  s)) := by
      unfold handleSendMessage
      rw [if_neg hnb]
      simp [addMessage_sessions_eq, addMessage_currentId, List.map_map, Function.comp]
    simp only [hsess, List.getElem_map]
    exact appendToSession_twice _ _ _ _ _ _ _ _ _ _ hid
  · unfold handleSendMessage
    rw [if_neg hnb]

/-- C1 witness: one session "1", input "hi", translation "salaam". -/
theorem handleSend_success_appends_witness :
    (0 : Nat) < (⟨[⟨"1", "New Conversation", [], 0, 0⟩], "1", false⟩ : AppState).sessions.length ∧
    jsTrim "hi" ≠ "" ∧
    ∃ hlt2 : 0 < (handleSendMessage
        (⟨[⟨"1", "New Conversation", [], 0, 0⟩], "1", false⟩ : AppState)
        "hi" (Except.ok "salaam") 5 6).sessions.length,
      ((handleSendMessage
          (⟨[⟨"1", "New Conversation", [], 0, 0⟩], "1", false⟩ : AppState)
          "hi" (Except.ok "salaam") 5 6).sessions[0]).messages =
          (⟨[⟨"1", "New Conversation", [], 0, 0⟩], "1", false⟩ : AppState).sessions[0].messages ++
            [mkMessage 5 "hi" Sender.user none,
             mkMessage 6 "salaam" Sender.ai (some "hi")] ∧
      (mkMessage 5 "hi" Sender.user none).text = "hi" ∧
      (mkMessage 5 "hi" Sender.user none).sender = Sender.user ∧
      (mkMessage 6 "salaam" Sender.ai (some "hi")).text = "salaam" ∧
      (mkMessage 6 "salaam" Sender.ai (some "hi")).originalText = some "hi" ∧
      (mkMessage 6 "salaam" Sender.ai (some "hi")).sender = Sender.ai ∧
      (handleSendMessage
          (⟨[⟨"1", "New Conversation", [], 0, 0⟩], "1", false⟩ : AppState)
          "hi" (Except.ok "salaam") 5 6).isLoading = false :=
  ⟨by decide, by decide,
   handleSend_success_appends
     (⟨[⟨"1", "New Conversation", [], 0, 0⟩], "1", false⟩ : AppState)
     "hi" "salaam" 5 6 0 (by decide) (by decide) (by decide)⟩

/-- C6: for non-blank input, a failed translation makes `handleSendMessage`
append to the call-time current session the USER message followed by
exactly one AI message carrying the fixed fallback text (independent of
the error value `e`, so never the raw error), with the loading flag false
at the end; the embedded function is total, so no exception escapes. -/
theorem handleSend_failure_fallback (st : AppState) (input e : String)
    (t1 t2 i : Nat)
    (hlt : i < st.sessions.length)
    (hid : (st.sessions[i]).id = st.currentSessionId)
    (hnb : jsTrim input ≠ "") :
    ∃ hlt2 : i < (handleSendMessage st input (Except.error e) t1 t2).sessions.length,
      ((handleSendMessage st input (Except.error e) t1 t2).sessions[i]).messages =
          st.sessions[i].messages ++
            [mkMessage t1 input Sender.user none,
             mkMessage t2 errorFallbackText Sender.ai none] ∧
      (mkMessage t2 errorFallbackText Sender.ai none).text = errorFallbackText ∧
      (mkMessage t2 errorFallbackText Sender.ai none).sender = Sender.ai ∧
      errorFallbackText =
        "Error processing request. Please check your internet connection." ∧
      (handleSendMessage st input (Except.error e) t1 t2).isLoading = false := by
  refine ⟨by rw [handleSend_length]; exact hlt, ?_, rfl, rfl, rfl, ?_⟩
  · have hsess :
        (handleSendMessage st input (Except.error e) t1 t2).sessions =
          st.sessions.map
            (fun s =>
              appendToSession st.currentSessionId errorFallbackText Sender.ai
                none t2
                (appendToSession st.currentSessionId input Sender.user none t1
                  s)) := by
      unfold handleSendMessage
      rw [if_neg hnb]
      simp [addMessage_sessions_eq, addMessage_currentId, List.map_map, Function.comp]
    simp only [hsess, List.getElem_map]
    exact appendToSession_twice _ _ _ _ _ _ _ _ _ _ hid
  · unfold handleSendMessage
    rw [if_neg hnb]

/-- C6 witness: one session "1", input "hi", translation rejected with
"network down". -/
theorem handleSend_failure_fallback_witness :
    (0 : Nat) < (⟨[⟨"1", "New Conversation", [], 0, 0⟩], "1", false⟩ : AppState).sessions.length ∧
    jsTrim "hi" ≠ "" ∧
    ∃ hlt2 : 0 < (handleSendMessage
        (⟨[⟨"1", "New Conversation", [], 0, 0⟩], "1", false⟩ : AppState)
        "hi" (Except.error "network down") 5 6).sessions.length,
      ((handleSendMessage
          (⟨[⟨"1", "New Conversation", [], 0, 0⟩], "1", false⟩ : AppState)
          "hi" (Except.error "network down") 5 6).sessions[0]).messages =
          (⟨[⟨"1", "New Conversation", [], 0, 0⟩], "1", false⟩ : AppState).sessions[0].messages ++
            [mkMessage 5 "hi" Sender.user none,
             mkMessage 6 errorFallbackText Sender.ai none] ∧
      (mkMessage 6 errorFallbackText Sender.ai none).text = errorFallbackText ∧
      (mkMessage 6 errorFallbackText Sender.ai none).sender = Sender.ai ∧
      errorFallbackText =
        "Error processing request. Please check your internet connection." ∧
      (handleSendMessage
          (⟨[⟨"1", "New Conversation", [], 0, 0⟩], "1", false⟩ : AppState)
          "hi" (Except.error "network down") 5 6).isLoading = false :=
  ⟨by decide, by decide,
   handleSend_failure_fallback
     (⟨[⟨"1", "New Conversation", [], 0, 0⟩], "1", false⟩ : AppState)
     "hi" "network down" 5 6 0 (by decide) (by decide) (by decide)⟩

/-! ## C2: the collection is never empty after create/delete/clear -/

theorem storeInv_createNewSession (st : AppState) (t : Nat) :
    StoreInv (createNewSession st t) := by
  constructor
  · simp [createNewSession]
  · simp [createNewSession, newSessionAt]

theorem storeInv_clearHistory (st : AppState) (t : Nat) :
    StoreInv (clearHistory st t) :=
  storeInv_createNewSession { st with sessions := [] } t

theorem storeInv_deleteSession (st : AppState) (id : String) (t : Nat)
    (h : StoreInv st) : StoreInv (deleteSession st id t) := by
  obtain ⟨hne, hmem⟩ := h
  by_cases hc : st.currentSessionId = id
  · simp only [deleteSession]
    rw [if_pos hc]
    split
    · rename_i h0
      constructor
      · exact List.length_pos.mp h0
      · exact List.mem_map.mpr
          ⟨(st.sessions.filter (fun s => s.id != id)).get ⟨0, h0⟩,
           List.get_mem _ _ _, rfl⟩
    · constructor
      · simp
      · simp [newSessionAt]
  · obtain ⟨s, hs, hsid⟩ := List.mem_map.mp hmem
    have hsfil : s ∈ st.sessions.filter (fun x => x.id != id) :=
      List.mem_filter.mpr ⟨hs, by simp [hsid]; exact fun hcon => hc (hsid ▸ hcon ▸ hsid)⟩
    simp only [deleteSession]
    rw [if_neg hc]
    constructor
    · exact List.ne_nil_of_mem hsfil
    · exact List.mem_map.mpr ⟨s, hsfil, hsid⟩

theorem storeInv_applyOp (st : AppState) (op : SessionOp)
    (h : StoreInv st) : StoreInv (applyOp st op) := by
  cases op with
  | create t => exact storeInv_createNewSession st t
  | delete id t => exact storeInv_deleteSession st id t h
  | clear t => exact storeInv_clearHistory st t

theorem storeInv_applyOps (ops : List SessionOp) :
    ∀ st : AppState, StoreInv st → StoreInv (applyOps st ops) := by
  induction ops with
  | nil => exact fun _ h => h
  | cons op ops ih => exact fun st h => ih _ (storeInv_applyOp st op h)

/-- C2: starting from any state satisfying the initialization invariant,
after any sequence of create-session, delete-session and clear-all
operations the session collection is non-empty; in particular, deleting
the sole remaining session (necessarily the current one, by the
invariant) yields a collection of size 1 holding a fresh empty
"New Conversation" session. -/
theorem sessions_never_empty (st : AppState) (ops : List SessionOp)
    (h : StoreInv st) :
    (applyOps st ops).sessions ≠ [] ∧
    ∀ (s : ChatSession) (b : Bool) (t : Nat),
      (deleteSession ⟨[s], s.id, b⟩ s.id t).sessions = [newSessionAt t] ∧
      (deleteSession ⟨[s], s.id, b⟩ s.id t).currentSessionId =
        (newSessionAt t).id ∧
      (newSessionAt t).messages = [] ∧
      (newSessionAt t).title = "New Conversation" := by
  refine ⟨(storeInv_applyOps ops st h).1, ?_⟩
  intro s b t
  refine ⟨?_, ?_, rfl, rfl⟩ <;> simp [deleteSession]

/-- C2 witness: initialized one-session state; delete that session, then
clear all. -/
theorem sessions_never_empty_witness :
    StoreInv (⟨[newSessionAt 0], "0", false⟩ : AppState) ∧
    ((applyOps (⟨[newSessionAt 0], "0", false⟩ : AppState)
        [SessionOp.delete "0" 1, SessionOp.clear 2]).sessions ≠ [] ∧
     ∀ (s : ChatSession) (b : Bool) (t : Nat),
       (deleteSession ⟨[s], s.id, b⟩ s.id t).sessions = [newSessionAt t] ∧
       (deleteSession ⟨[s], s.id, b⟩ s.id t).currentSessionId =
         (newSessionAt t).id ∧
       (newSessionAt t).messages = [] ∧
       (newSessionAt t).title = "New Conversation") :=
  ⟨by decide,
   sessions_never_empty (⟨[newSessionAt 0], "0", false⟩ : AppState)
     [SessionOp.delete "0" 1, SessionOp.clear 2] (by decide)⟩

/-! ## C3: which session becomes current after deleting the current one -/

/-- C3 counterexample: in the collection A("a"), B("b"), C("c") with B
current, the next remaining session after B in the prior order is C
("c"), but `deleteSession` selects `remaining[0]`, which is A ("a"). -/
theorem deleteSession_not_next_cex :
    nextRemainingAfter
        [⟨"a", "A", [], 0, 0⟩, ⟨"b", "B", [], 0, 0⟩, ⟨"c", "C", [], 0, 0⟩]
        "b" = some "c" ∧
    (deleteSession
        (⟨[⟨"a", "A", [], 0, 0⟩, ⟨"b", "B", [], 0, 0⟩,
           ⟨"c", "C", [], 0, 0⟩], "b", false⟩ : AppState)
        "b" 9).currentSessionId = "a" ∧
    ("a" : String) ≠ "c" := by
  refine ⟨by decide, by decide, by decide⟩

/-- C3 amended: deleting a present session id removes it (every surviving
session either has a different id or is the freshly created empty
session), and if the removed session was the current one, the new current
session is the FIRST remaining session in the prior order (the topmost,
`remaining[0]`), or a freshly created empty session if no session
remains. -/
theorem deleteSession_current_selects_first_remaining (st : AppState)
    (id : String) (t : Nat) (hcur : st.currentSessionId = id)
    (hpres : id ∈ st.sessions.map (fun s => s.id)) :
    (∀ s ∈ (deleteSession st id t).sessions,
        s.id ≠ id ∨ s = newSessionAt t) ∧
    (∀ (r : ChatSession) (rest : List ChatSession),
        st.sessions.filter (fun s => s.id != id) = r :: rest →
        (deleteSession st id t).sessions = r :: rest ∧
        (deleteSession st id t).currentSessionId = r.id) ∧
    (st.sessions.filter (fun s => s.id != id) = [] →
        (deleteSession st id t).sessions = [newSessionAt t] ∧
        (deleteSession st id t).currentSessionId = (newSessionAt t).id ∧
        (newSessionAt t).messages = []) := by
  refine ⟨?_, ?_, ?_⟩
  · intro s hs
    simp only [deleteSession] at hs
    rw [if_pos hcur] at hs
    split at hs
    · left
      simpa using (List.mem_filter.mp hs).2
    · right
      simpa using hs
  · intro r rest hfil
    refine ⟨?_, ?_⟩ <;> simp [deleteSession, hcur, hfil]
  · intro hfil
    refine ⟨?_, ?_, rfl⟩ <;> simp [deleteSession, hcur, hfil]

/-- C3 amended witness: two sessions "b" (current) and "c"; deleting "b"
leaves ["c"] and makes "c" current. -/
theorem deleteSession_current_selects_first_remaining_witness :
    (⟨[⟨"b", "B", [], 0, 0⟩, ⟨"c", "C", [], 0, 0⟩], "b", false⟩ : AppState).currentSessionId = "b" ∧
    ("b" : String) ∈ (⟨[⟨"b", "B", [], 0, 0⟩, ⟨"c", "C", [], 0, 0⟩], "b", false⟩ : AppState).sessions.map (fun s => s.id) ∧
    ((∀ s ∈ (deleteSession (⟨[⟨"b", "B", [], 0, 0⟩, ⟨"c", "C", [], 0, 0⟩], "b", false⟩ : AppState) "b" 9).sessions,
        s.id ≠ "b" ∨ s = newSessionAt 9) ∧
     (∀ (r : ChatSession) (rest : List ChatSession),
        (⟨[⟨"b", "B", [], 0, 0⟩, ⟨"c", "C", [], 0, 0⟩], "b", false⟩ : AppState).sessions.filter (fun s => s.id != "b") = r :: rest →
        (deleteSession (⟨[⟨"b", "B", [], 0, 0⟩, ⟨"c", "C", [], 0, 0⟩], "b", false⟩ : AppState) "b" 9).sessions = r :: rest ∧
        (deleteSession (⟨[⟨"b", "B", [], 0, 0⟩, ⟨"c", "C", [], 0, 0⟩], "b", false⟩ : AppState) "b" 9).currentSessionId = r.id) ∧
     ((⟨[⟨"b", "B", [], 0, 0⟩, ⟨"c", "C", [], 0, 0⟩], "b", false⟩ : AppState).sessions.filter (fun s => s.id != "b") = [] →
        (deleteSession (⟨[⟨"b", "B", [], 0, 0⟩, ⟨"c", "C", [], 0, 0⟩], "b", false⟩ : AppState) "b" 9).sessions = [newSessionAt 9] ∧
        (deleteSession (⟨[⟨"b", "B", [], 0, 0⟩, ⟨"c", "C", [], 0, 0⟩], "b", false⟩ : AppState) "b" 9).currentSessionId = (newSessionAt 9).id ∧
        (newSessionAt 9).messages = [])) :=
  ⟨by decide, by decide,
   deleteSession_current_selects_first_remaining
     (⟨[⟨"b", "B", [], 0, 0⟩, ⟨"c", "C", [], 0, 0⟩], "b", false⟩ : AppState)
     "b" 9 (by decide) (by decide)⟩

/-! ## C10: deleting a non-current session is a pure removal -/

/-- C10: deleting a session id that is present but not current leaves
`currentSessionId` and the loading flag unchanged and leaves every
remaining session untouched (each survivor is literally an element of the
prior collection, so its messages, title and timestamps are unchanged);
only sessions carrying the named id are removed. -/
theorem deleteSession_noncurrent_frame (st : AppState) (id : String)
    (t : Nat)
    (hpres : id ∈ st.sessions.map (fun s => s.id))
    (hnc : st.currentSessionId ≠ id) :
    (deleteSession st id t).currentSessionId = st.currentSessionId ∧
    (deleteSession st id t).sessions =
      st.sessions.filter (fun s => s.id != id) ∧
    (∀ s ∈ (deleteSession st id t).sessions,
        s ∈ st.sessions ∧ s.id ≠ id) ∧
    (∀ s ∈ st.sessions, s.id ≠ id → s ∈ (deleteSession st id t).sessions) ∧
    (deleteSession st id t).isLoading = st.isLoading := by
  have hsess : (deleteSession st id t).sessions =
      st.sessions.filter (fun s => s.id != id) := by
    simp only [deleteSession]
    rw [if_neg hnc]
  have hcur : (deleteSession st id t).currentSessionId =
      st.currentSessionId := by
    simp only [deleteSession]
    rw [if_neg hnc]
  have hload : (deleteSession st id t).isLoading = st.isLoading := by
    simp only [deleteSession]
    rw [if_neg hnc]
  refine ⟨hcur, hsess, ?_, ?_, hload⟩
  · intro s hs
    rw [hsess] at hs
    exact ⟨List.mem_of_mem_filter hs,
      by simpa using (List.mem_filter.mp hs).2⟩
  · intro s hs hne
    rw [hsess]
    exact List.mem_filter.mpr ⟨hs, by simpa using hne⟩

/-- C10 witness: sessions "a" (current, one message) and "b"; deleting
"b" keeps "a" current and untouched. -/
theorem deleteSession_noncurrent_frame_witness :
    ("b" : String) ∈ (⟨[⟨"a", "A", [⟨"5", "hi", none, Sender.user, 5⟩], 0, 5⟩, ⟨"b", "B", [], 0, 0⟩], "a", false⟩ : AppState).sessions.map (fun s => s.id) ∧
    (⟨[⟨"a", "A", [⟨"5", "hi", none, Sender.user, 5⟩], 0, 5⟩, ⟨"b", "B", [], 0, 0⟩], "a", false⟩ : AppState).currentSessionId ≠ "b" ∧
    ((deleteSession (⟨[⟨"a", "A", [⟨"5", "hi", none, Sender.user, 5⟩], 0, 5⟩, ⟨"b", "B", [], 0, 0⟩], "a", false⟩ : AppState) "b" 9).currentSessionId =
        (⟨[⟨"a", "A", [⟨"5", "hi", none, Sender.user, 5⟩], 0, 5⟩, ⟨"b", "B", [], 0, 0⟩], "a", false⟩ : AppState).currentSessionId ∧
     (deleteSession (⟨[⟨"a", "A", [⟨"5", "hi", none, Sender.user, 5⟩], 0, 5⟩, ⟨"b", "B", [], 0, 0⟩], "a", false⟩ : AppState) "b" 9).sessions =
        (⟨[⟨"a", "A", [⟨"5", "hi", none, Sender.user, 5⟩], 0, 5⟩, ⟨"b", "B", [], 0, 0⟩], "a", false⟩ : AppState).sessions.filter (fun s => s.id != "b") ∧
     (∀ s ∈ (deleteSession (⟨[⟨"a", "A", [⟨"5", "hi", none, Sender.user, 5⟩], 0, 5⟩, ⟨"b", "B", [], 0, 0⟩], "a", false⟩ : AppState) "b" 9).sessions,
        s ∈ (⟨[⟨"a", "A", [⟨"5", "hi", none, Sender.user, 5⟩], 0, 5⟩, ⟨"b", "B", [], 0, 0⟩], "a", false⟩ : AppState).sessions ∧ s.id ≠ "b") ∧
     (∀ s ∈ (⟨[⟨"a", "A", [⟨"5", "hi", none, Sender.user, 5⟩], 0, 5⟩, ⟨"b", "B", [], 0, 0⟩], "a", false⟩ : AppState).sessions, s.id ≠ "b" →
        s ∈ (deleteSession (⟨[⟨"a", "A", [⟨"5", "hi", none, Sender.user, 5⟩], 0, 5⟩, ⟨"b", "B", [], 0, 0⟩], "a", false⟩ : AppState) "b" 9).sessions) ∧
     (deleteSession (⟨[⟨"a", "A", [⟨"5", "hi", none, Sender.user, 5⟩], 0, 5⟩, ⟨"b", "B", [], 0, 0⟩], "a", false⟩ : AppState) "b" 9).isLoading =
        (⟨[⟨"a", "A", [⟨"5", "hi", none, Sender.user, 5⟩], 0, 5⟩, ⟨"b", "B", [], 0, 0⟩], "a", false⟩ : AppState).isLoading) :=
  ⟨by decide, by decide,
   deleteSession_noncurrent_frame
     (⟨[⟨"a", "A", [⟨"5", "hi", none, Sender.user, 5⟩], 0, 5⟩,
        ⟨"b", "B", [], 0, 0⟩], "a", false⟩ : AppState)
     "b" 9 (by decide) (by decide)⟩

/-! ## C7: settings loading merges the persisted blob with defaults -/

/-- C7: for every persisted settings blob — absent, malformed, or a
partial object — `loadSettings` yields a fully-populated `Settings` value
in which every field missing from the blob equals its default and every
field present keeps the persisted value. -/
theorem loadSettings_merges_defaults :
    loadSettings StoredSettings.absent = DEFAULT_SETTINGS ∧
    loadSettings StoredSettings.malformed = DEFAULT_SETTINGS ∧
    ∀ p : SettingsPatch,
      ((p.darkMode = none →
          (loadSettings (StoredSettings.parsed p)).darkMode =
            DEFAULT_SETTINGS.darkMode) ∧
       (∀ v, p.darkMode = some v →
          (loadSettings (StoredSettings.parsed p)).darkMode = v)) ∧
      ((p.voiceEnabled = none →
          (loadSettings (StoredSettings.parsed p)).voiceEnabled =
            DEFAULT_SETTINGS.voiceEnabled) ∧
       (∀ v, p.voiceEnabled = some v →
          (loadSettings (StoredSettings.parsed p)).voiceEnabled = v)) ∧
      ((p.preferredVoice = none →
          (loadSettings (StoredSettings.parsed p)).preferredVoice =
            DEFAULT_SETTINGS.preferredVoice) ∧
       (∀ v, p.preferredVoice = some v →
          (loadSettings (StoredSettings.parsed p)).preferredVoice = v)) ∧
      ((p.animationsEnabled = none →
          (loadSettings (StoredSettings.parsed p)).animationsEnabled =
            DEFAULT_SETTINGS.animationsEnabled) ∧
       (∀ v, p.animationsEnabled = some v →
          (loadSettings (StoredSettings.parsed p)).animationsEnabled = v)) := by
  refine ⟨rfl, rfl, fun p => ⟨⟨?_, ?_⟩, ⟨?_, ?_⟩, ⟨?_, ?_⟩, ⟨?_, ?_⟩⟩⟩
  · intro h; simp [loadSettings, mergeSettings, h]
  · intro v h; simp [loadSettings, mergeSettings, h]
  · intro h; simp [loadSettings, mergeSettings, h]
  · intro v h; simp [loadSettings, mergeSettings, h]
  · intro h; simp [loadSettings, mergeSettings, h]
  · intro v h; simp [loadSettings, mergeSettings, h]
  · intro h; simp [loadSettings, mergeSettings, h]
  · intro v h; simp [loadSettings, mergeSettings, h]

/-- C7 witness: a blob with `darkMode` persisted as `true` and the other
fields missing keeps the persisted `darkMode` and defaults
`voiceEnabled`. -/
theorem loadSettings_merges_defaults_witness :
    (loadSettings (StoredSettings.parsed
        ⟨some true, none, none, some false⟩)).darkMode = true ∧
    (loadSettings (StoredSettings.parsed
        ⟨some true, none, none, some false⟩)).voiceEnabled =
      DEFAULT_SETTINGS.voiceEnabled :=
  ⟨(loadSettings_merges_defaults.2.2
      ⟨some true, none, none, some false⟩).1.2 true rfl,
   (loadSettings_merges_defaults.2.2
      ⟨some true, none, none, some false⟩).2.1.1 rfl⟩

/-! ## C9: message ids are NOT unique — Date.now() collisions -/

/-- C9 (code bug): message ids are `Date.now().toString()`, so two
messages created in the same millisecond collide.  Here a send whose
translation settles in the same millisecond (both clock reads are 1000)
produces two distinct messages — a USER one and an AI one — both with id
"1000", contradicting the documented uniqueness of message ids. -/
theorem message_ids_collide_same_millisecond :
    ((handleSendMessage
        (⟨[⟨"1", "New Conversation", [], 0, 0⟩], "1", false⟩ : AppState)
        "hi" (Except.ok "salaam") 1000 1000).sessions.map
      (fun s => s.messages.map (fun m => m.id))) = [["1000", "1000"]] ∧
    ((handleSendMessage
        (⟨[⟨"1", "New Conversation", [], 0, 0⟩], "1", false⟩ : AppState)
        "hi" (Except.ok "salaam") 1000 1000).sessions.map
      (fun s => s.messages.map (fun m => m.sender))) =
        [[Sender.user, Sender.ai]] := by
  refine ⟨by decide, by decide⟩
